import Mathlib

/-!
Verification development for the cross-thread resource lifecycle layer of the
server repository (files `src/nodes/drawable/model.rs`, `src/wayland/surface.rs`,
`src/core/eventloop.rs`).

The Rust code is shallowly embedded:
* `FxHashMap` staging collections become association lists with overwriting
  insert (`insertAL`); iteration is list order (the Rust map order is
  unspecified, the list order is one concrete determinization of it).
* StereoKit graphics calls are recorded as events (`DrawEvent`) and as updates
  to an explicit world of materials (`SKWorld`), so "a primitive was invoked"
  is an observable fact of the embedding.
* `OnceCell` fields become `Option` fields; `get_or_try_init` that fails leaves
  the field `none` (the once_cell semantics: the cell stays uninitialized after
  a failed initializer).
* `Delta` (`src/core/delta.rs`) and the destroy queue (`src/core/destroy_queue.rs`)
  are not part of the excerpt; they are modelled from the spec where noted.
-/

namespace Stardust

/-! ### Association-list maps (embedding of `FxHashMap`) -/

/-- Lookup in an association list; first binding for the key wins. -/
def lookupAL {α β : Type} [DecidableEq α] : List (α × β) → α → Option β
  | [], _ => none
  | (k, v) :: rest, a => if k = a then some v else lookupAL rest a

/-- Overwriting insert, as `HashMap::insert`: replaces the binding for the key
if present, otherwise appends a new binding. -/
def insertAL {α β : Type} [DecidableEq α] : List (α × β) → α → β → List (α × β)
  | [], a, b => [(a, b)]
  | (k, v) :: rest, a, b =>
    if k = a then (a, b) :: rest else (k, v) :: insertAL rest a b

/-- Update the binding for a key in place when it is present; no effect when
absent (embedding of mutating through a shared reference found in a directory). -/
def updateAL {α β : Type} [DecidableEq α] : List (α × β) → α → (β → β) → List (α × β)
  | [], _, _ => []
  | (k, v) :: rest, a, f =>
    if k = a then (k, f v) :: rest else (k, v) :: updateAL rest a f

/-! ### Material parameters (`MaterialParameter`, model.rs lines 30-115) -/

/-- Staged material parameter value (`MaterialParameter` in model.rs).  The
numeric payload variants (`Float`, `Vector*`, `Color`, `Int*`, `Bool`, `UInt*`,
`Matrix`) all apply unconditionally through the corresponding
`material_set_*` call and are abstracted as `scalarVal`; the `Texture` variant
resolves a resource file and silently does nothing when resolution or texture
creation fails, abstracted as `textureVal` with `none` marking the failed
resolution/load (the resolution outcome is baked into the staged value, which
is irrelevant to the staging and copy-on-write behaviour studied here). -/
inductive MaterialParameter where
  | scalarVal (v : Int)
  | textureVal (file : Option String)
deriving DecidableEq, Repr

/-- The parameter store of one StereoKit material, by parameter name. -/
abbrev ParamMap := List (String × MaterialParameter)

/-- `MaterialParameter::apply_to_material` (model.rs lines 51-114): every
variant writes the value under `parameter_name` on the given material, except
a `Texture` whose file fails to resolve or load, which silently does nothing. -/
def MaterialParameter.apply_to_material
    (p : MaterialParameter) (parameter_name : String) (m : ParamMap) : ParamMap :=
  match p with
  | .scalarVal _ => insertAL m parameter_name p
  | .textureVal none => m
  | .textureVal (some _) => insertAL m parameter_name p

/-! ### The StereoKit world -/

/-- A StereoKit model: its material slots, `model_get_material` is lookup,
`model_set_material` is overwriting insert on an existing slot. -/
structure SKModelVal where
  slots : List (Int × Nat)
deriving DecidableEq, Repr

/-- The mutable graphics world: the store of materials by id, with a fresh-id
counter used by `material_copy` to allocate new material objects. -/
structure SKWorld where
  nextMat : Nat
  mats : List (Nat × ParamMap)
deriving DecidableEq, Repr

/-- The graphics capability consumed by model realization:
`model_create_file(path)` either yields a model or fails (missing asset or
decode error), abstracted as `Option`. -/
structure GraphicsEnv where
  model_create_file : String → Option SKModelVal

/-- An opaque graphics-context-bound handle as transferred to the destroy
queue at drop time. -/
inductive GpuHandle where
  | model (v : SKModelVal)
  | tex (id : Nat)
  | mat (id : Nat)
deriving DecidableEq, Repr

/-- Observable primitive invocations of the embedding.  `constructAttempt` is
one call of `model_create_file`, `setMaterial` one `model_set_material` from
the replacement pass, `paramApply` one `apply_to_material` call from the
parameter pass, `logError` one `error!` log, `modelDraw` one `model_draw`,
`skDestroy` one real graphics teardown (only the destroy-queue drain emits it). -/
inductive DrawEvent where
  | constructAttempt (path : String)
  | setMaterial (slot : Int) (mat : Nat)
  | paramApply (slot : Int) (name : String) (value : MaterialParameter)
  | logError
  | modelDraw
  | skDestroy (h : GpuHandle)
deriving DecidableEq, Repr

/-- The `setMaterial` calls contained in an event trace, in order. -/
def setMaterialEvents (evs : List DrawEvent) : List (Int × Nat) :=
  evs.filterMap fun e =>
    match e with
    | .setMaterial s m => some (s, m)
    | _ => none

/-- The parameter applications for one `(slot, name)` key contained in an
event trace, in order. -/
def paramAppsFor (k : Int × String) (evs : List DrawEvent) : List MaterialParameter :=
  evs.filterMap fun e =>
    match e with
    | .paramApply s n v => if s = k.1 ∧ n = k.2 then some v else none
    | _ => none

/-! ### Model (model.rs lines 117-259) -/

/-- `Model` (model.rs lines 117-125).  `OnceCell` fields are `Option`s; the
two staging collections are the keyed maps of the source
(`pending_material_parameters : FxHashMap<(i32, String), MaterialParameter>`,
`pending_material_replacements : FxHashMap<u32, Arc<Material>>`, materials by
id). -/
structure Model where
  enabled : Bool
  pending_model_path : Option String
  pending_material_parameters : List ((Int × String) × MaterialParameter)
  pending_material_replacements : List (Nat × Nat)
  sk_model : Option SKModelVal
deriving DecidableEq, Repr

/-- `Model::set_material_parameter_flex` (model.rs lines 166-187): inserts the
deserialized value into the keyed staging map under `(info.idx as i32, info.name)`,
overwriting any unconsumed entry for the same key. -/
def Model.set_material_parameter_flex
    (m : Model) (idx : Nat) (name : String) (value : MaterialParameter) : Model :=
  { m with pending_material_parameters :=
      insertAL m.pending_material_parameters (Int.ofNat idx, name) value }

/-- The single writer of `pending_material_replacements` in the excerpt
(surface.rs lines 189-196): `model.pending_material_replacements.lock()
.insert(material_idx, material)` — a keyed overwriting insert. -/
def Model.stage_material_replacement (m : Model) (material_idx : Nat) (mat : Nat) : Model :=
  { m with pending_material_replacements :=
      insertAL m.pending_material_replacements material_idx mat }

/-- The replacement pass of `Model::draw` (model.rs lines 202-217): iterate the
staged replacement map; for each entry whose slot exists on the model
(`model_get_material(.., *material_idx as i32).is_some()`) invoke
`model_set_material`; entries with an unknown slot are silently dropped. -/
def applyReplacements (skm : SKModelVal) :
    List (Nat × Nat) → SKModelVal × List DrawEvent
  | [] => (skm, [])
  | (material_idx, mat) :: rest =>
    if (lookupAL skm.slots (Int.ofNat material_idx)).isSome then
      let skm' : SKModelVal := ⟨insertAL skm.slots (Int.ofNat material_idx) mat⟩
      let r := applyReplacements skm' rest
      (r.1, .setMaterial (Int.ofNat material_idx) mat :: r.2)
    else
      applyReplacements skm rest

/-- The parameter pass of `Model::draw` (model.rs lines 220-233): drain the
keyed staging map; for each entry whose slot exists, `material_copy` the
current material at the slot (allocating a fresh material id), apply the value
onto the copy, and `model_set_material` the copy into the slot; entries with
an unknown slot are silently dropped (`else continue`). -/
def applyParameters (skm : SKModelVal) (w : SKWorld) :
    List ((Int × String) × MaterialParameter) → SKModelVal × SKWorld × List DrawEvent
  | [] => (skm, w, [])
  | ((material_idx, parameter_name), value) :: rest =>
    match lookupAL skm.slots material_idx with
    | none => applyParameters skm w rest
    | some matId =>
      let pm := (lookupAL w.mats matId).getD []
      let newId := w.nextMat
      let pm' := value.apply_to_material parameter_name pm
      let w' : SKWorld := ⟨newId + 1, insertAL w.mats newId pm'⟩
      let skm' : SKModelVal := ⟨insertAL skm.slots material_idx newId⟩
      let r := applyParameters skm' w' rest
      (r.1, r.2.1, .paramApply material_idx parameter_name value :: r.2.2)

/-- The body of the `if let Some(sk_model)` block of `Model::draw`
(model.rs lines 201-241): replacement pass, then — only when the owning node
and client can still be upgraded (`clientAlive`) — the parameter pass, then
`model_draw`.  Both passes leave their staging collection empty; when the
client is gone the parameter map is left untouched. -/
def Model.drawRealized (clientAlive : Bool) (m : Model) (skm : SKModelVal)
    (w : SKWorld) (ev0 : List DrawEvent) : Model × SKWorld × List DrawEvent :=
  let r := applyReplacements skm m.pending_material_replacements
  let m1 : Model := { m with pending_material_replacements := [], sk_model := some r.1 }
  if clientAlive then
    let p := applyParameters r.1 w m.pending_material_parameters
    ({ m1 with pending_material_parameters := [], sk_model := some p.1 }, p.2.1,
      ev0 ++ r.2 ++ p.2.2 ++ [.modelDraw])
  else
    (m1, w, ev0 ++ r.2 ++ [.modelDraw])

/-- `Model::draw` (model.rs lines 189-242).  `sk_model.get_or_try_init`: when
already realized, use the stored model; otherwise run the initializer — it
fails without a construction call when `pending_model_path` is unset
(`ok_or(Error)?`), and calls `model_create_file` otherwise.  On initializer
failure the `OnceCell` stays empty and `.ok()` silently discards the error
(no log); the whole body is then skipped.  On success the created model (after
`model_copy`, identity on the embedded value) is stored and drawn. -/
def Model.draw (env : GraphicsEnv) (clientAlive : Bool) (m : Model) (w : SKWorld) :
    Model × SKWorld × List DrawEvent :=
  match m.sk_model with
  | some skm => Model.drawRealized clientAlive m skm w []
  | none =>
    match m.pending_model_path with
    | none => (m, w, [])
    | some path =>
      match env.model_create_file path with
      | none => (m, w, [.constructAttempt path])
      | some skm =>
        Model.drawRealized clientAlive { m with sk_model := some skm } skm w
          [.constructAttempt path]

/-- `n` successive per-frame `draw` calls on the same model, accumulating the
event trace. -/
def iterateDraw (env : GraphicsEnv) (clientAlive : Bool) :
    Nat → Model → SKWorld → Model × SKWorld × List DrawEvent
  | 0, m, w => (m, w, [])
  | n + 1, m, w =>
    let r := Model.draw env clientAlive m w
    let r' := iterateDraw env clientAlive n r.1 r.2.1
    (r'.1, r'.2.1, r.2.2 ++ r'.2.2)

/-- `draw_all` (model.rs lines 253-259): visit every model of the registry
snapshot; draw the enabled ones, skip the disabled ones.  A per-object
construction failure never aborts the pass: the remaining models are still
visited. -/
def draw_all (env : GraphicsEnv) (clientAlive : Bool) :
    List Model → SKWorld → List Model × SKWorld × List DrawEvent
  | [], w => ([], w, [])
  | m :: rest, w =>
    if m.enabled then
      let r := Model.draw env clientAlive m w
      let rs := draw_all env clientAlive rest r.2.1
      (r.1 :: rs.1, rs.2.1, r.2.2 ++ rs.2.2)
    else
      let rs := draw_all env clientAlive rest w
      (m :: rs.1, rs.2.1, rs.2.2)

/-! ### Model creation (`Model::add_to`, model.rs lines 128-164) -/

/-- The externally visible steps of `Model::add_to`, in program order:
publication of the new model in `MODEL_REGISTRY`, setting of the resolved
model path into the `pending_model_path` cell, attachment as the node's
drawable, and — on the error paths after publication — removal from the
registry when the only strong owner drops at function exit. -/
inductive AddEvent where
  | registryAdd
  | descriptorSet
  | drawableSet
  | registryRemove
deriving DecidableEq, Repr

/-- `Model::add_to` (model.rs lines 128-164).  Checks the spatial/drawable
preconditions, builds the model with empty staging and an unset path cell,
publishes it via `MODEL_REGISTRY.add`, then resolves the client and the
resource file and only afterwards sets `pending_model_path`; on a resolution
failure the function returns `Err` and the just-published model is dropped
(removing it from the registry again). -/
def Model.add_to (hasSpatial : Bool) (hasDrawable : Bool) (clientFound : Bool)
    (resolvedPath : Option String) : Except String Model × List AddEvent :=
  if !hasSpatial then
    (.error "Internal: Node does not have a spatial attached!", [])
  else if hasDrawable then
    (.error "Internal: Node already has a drawable attached!", [])
  else
    if !clientFound then
      (.error "Client not found", [.registryAdd, .registryRemove])
    else
      match resolvedPath with
      | none => (.error "Resource not found", [.registryAdd, .registryRemove])
      | some p =>
        (.ok { enabled := true
               pending_model_path := some p
               pending_material_parameters := []
               pending_material_replacements := []
               sk_model := none },
         [.registryAdd, .descriptorSet, .drawableSet])

/-! ### Deferred destruction -/

/-- Modelled from the spec: the process-wide `DestroyQueue`
(`src/core/destroy_queue.rs` is not part of the excerpt; spec section 4.2).
`add` accepts ownership of a boxed graphics-bound value from any thread,
appending in enqueue order (the `Option` mirrors that `Drop` impls may hand
over `OnceCell::take()` results that can be `None`); the render thread drains
the whole queue once per frame in enqueue order, running each present entry's
real teardown — the only call site of graphics-API deletion. -/
abbrev DQueue := List (Option GpuHandle)

/-- Modelled from the spec: `destroy_queue::add` (spec section 4.2) — append
the transferred handle, from any thread, non-blocking, never failing. -/
def destroyQueueAdd (q : DQueue) (h : Option GpuHandle) : DQueue := q ++ [h]

/-- Modelled from the spec: the once-per-frame drain (spec section 4.2) —
empty the whole queue in enqueue order, running each present entry's real
teardown (`skDestroy` events). -/
def drainDestroyQueue (q : DQueue) : DQueue × List DrawEvent :=
  ([], q.filterMap fun h => h.map DrawEvent.skDestroy)

/-- `impl Drop for Model` (model.rs lines 244-251): `sk_model.take()` — if a
GPU model was realized, move it out of the cell and hand sole ownership to
`destroy_queue::add`; no graphics primitive is invoked here (the registry
removal has no graphics effect).  The returned event list records the
graphics primitives invoked during the drop: none. -/
def Model.drop (m : Model) (q : DQueue) : Model × DQueue × List DrawEvent :=
  match m.sk_model with
  | some sk => ({ m with sk_model := none }, destroyQueueAdd q (some (.model sk)), [])
  | none => (m, q, [])

/-! ### ChangeCell / Delta -/

/-- Modelled from the spec: `Delta<T>` — the `ChangeCell`
(`src/core/delta.rs` is not part of the excerpt; spec sections 3 and 4.3):
a current value plus the last-observed value. -/
structure Delta (α : Type) where
  current : α
  last : α
deriving DecidableEq, Repr

/-- Modelled from the spec: `new(initial)` sets current = last (spec 4.3). -/
def Delta.new {α : Type} (a : α) : Delta α := ⟨a, a⟩

/-- Modelled from the spec: `value_mut()` exposes the current value to a
writer; writing through it replaces the current value (spec 4.3). -/
def Delta.write {α : Type} (d : Delta α) (a : α) : Delta α := { d with current := a }

/-- Modelled from the spec: `delta()` compares current to last; on inequality
it updates last and returns the new value, otherwise it returns nothing
(spec 3 and 4.3). -/
def Delta.delta {α : Type} [DecidableEq α] (d : Delta α) : Option α × Delta α :=
  if d.current = d.last then (none, d) else (some d.current, { d with last := d.current })

/-! ### CoreSurface (surface.rs lines 45-230) -/

/-- `CoreSurface` (surface.rs lines 45-55).  `sk_tex`/`sk_mat` are the lazily
initialized StereoKit texture and shared material (by id), `material_offset`
the queue-offset `Delta`, `mapped_data` the imported-buffer record, and
`pending_material_applications` the FIFO `Vec<(Arc<Model>, u32)>` of staged
material applications (models by id into a model store). -/
structure CoreSurface where
  sk_tex : Option Nat
  sk_mat : Option Nat
  material_offset : Delta Nat
  mapped_data : Option (Nat × Nat)
  pending_material_applications : List (Nat × Nat)
deriving DecidableEq, Repr

/-- The surface state built by `CoreSurface::add_to` (surface.rs lines 58-79):
empty cells, `Delta::new(0)`, no mapped data, no staged applications. -/
def CoreSurface.add_to : CoreSurface :=
  { sk_tex := none
    sk_mat := none
    material_offset := Delta.new 0
    mapped_data := none
    pending_material_applications := [] }

/-- `CoreSurface::set_material_offset` (surface.rs lines 179-181): write the
new offset through `value_mut()`. -/
def CoreSurface.set_material_offset (s : CoreSurface) (material_offset : Nat) : CoreSurface :=
  { s with material_offset := s.material_offset.write material_offset }

/-- `CoreSurface::apply_material` (surface.rs lines 183-187): push the
`(model, material_idx)` pair onto the surface-local staging `Vec`; nothing
else is touched. -/
def CoreSurface.apply_material (s : CoreSurface) (model : Nat) (material_idx : Nat) : CoreSurface :=
  { s with pending_material_applications :=
      s.pending_material_applications ++ [(model, material_idx)] }

/-- `CoreSurface::apply_surface_materials` (surface.rs lines 189-196): drain
the staged applications front to back; for each, insert the surface's shared
material into the target model's keyed replacement map under the slot. -/
def apply_surface_materials (models : List (Nat × Model))
    (pending : List (Nat × Nat)) (mat : Nat) : List (Nat × Model) :=
  pending.foldl
    (fun ms e => updateAL ms e.1 (fun m => m.stage_material_replacement e.2 mat)) models

/-- The per-call environment of `CoreSurface::process`: whether the
`wl_surface` weak reference still upgrades, whether `import_surface_tree`
succeeds, whether the surface has mapped committed content, the ids StereoKit
would hand out for a freshly created texture/material, and the current
surface size. -/
structure ProcessEnv where
  alive : Bool
  importOk : Bool
  mapped : Bool
  freshTex : Nat
  freshMat : Nat
  surfaceSize : Nat × Nat

/-- `CoreSurface::process` (surface.rs lines 91-165), in program order: bail
out unchanged when the `wl_surface` is gone; lazily initialize `sk_tex` and
`sk_mat` (`get_or_init`); bail out when buffer import fails; bail out when the
surface has no mapped committed content; otherwise consume the queue-offset
`Delta`, record the mapped data, and finally drain the staged material
applications into their target models (`apply_surface_materials`). -/
def CoreSurface.process (e : ProcessEnv) (s : CoreSurface)
    (models : List (Nat × Model)) : CoreSurface × List (Nat × Model) :=
  if !e.alive then (s, models)
  else
    let tex := s.sk_tex.getD e.freshTex
    let mat := s.sk_mat.getD e.freshMat
    let s1 : CoreSurface := { s with sk_tex := some tex, sk_mat := some mat }
    if !e.importOk then (s1, models)
    else if !e.mapped then (s1, models)
    else
      let d := s1.material_offset.delta
      let s2 : CoreSurface :=
        { s1 with
          material_offset := d.2
          mapped_data := some e.surfaceSize
          pending_material_applications := [] }
      (s2, apply_surface_materials models s1.pending_material_applications mat)

/-- `impl Drop for CoreSurface` (surface.rs lines 223-230): remove from the
registry, then hand `sk_tex.take()` and `sk_mat.take()` (both `Option`s) to
the destroy queue; no graphics primitive is invoked during the drop itself. -/
def CoreSurface.drop (s : CoreSurface) (q : DQueue) : CoreSurface × DQueue × List DrawEvent :=
  ({ s with sk_tex := none, sk_mat := none },
   destroyQueueAdd (destroyQueueAdd q (s.sk_tex.map .tex)) (s.sk_mat.map .mat), [])

/-! ### Connection accept loop (eventloop.rs lines 14-30) -/

/-- One `accept` outcome of the loop in `EventLoop::new`. -/
inductive AcceptResult where
  | ok (conn : Nat)
  | err
deriving DecidableEq, Repr

/-- The observable outcome of one iteration of the accept loop. -/
structure IterOutcome where
  continues : Bool
  logged : Bool
  clientCreated : Bool
deriving DecidableEq, Repr

/-- One iteration of the accept loop in `EventLoop::new` (eventloop.rs lines
18-25): a failed `accept` hits `else { continue }` — the loop continues with
no log; on a successful accept, `Client::from_connection` is attempted, and
its failure is logged (`error!`) while the loop still continues.  Nothing is
ever fatal to the loop. -/
def acceptIter (r : AcceptResult) (clientFromConnectionOk : Nat → Bool) : IterOutcome :=
  match r with
  | .err => { continues := true, logged := false, clientCreated := false }
  | .ok c =>
    if clientFromConnectionOk c then
      { continues := true, logged := false, clientCreated := true }
    else
      { continues := true, logged := true, clientCreated := false }

/-! ### Concrete sample values, used to evaluate the theorems on closed inputs -/

/-- A graphics environment whose asset loading always fails. -/
def failEnv : GraphicsEnv := ⟨fun _ => none⟩

/-- A realized model over a single slot 0 holding material 3, with empty
staging. -/
def realizedModel : Model :=
  { enabled := true
    pending_model_path := some "a.glb"
    pending_material_parameters := []
    pending_material_replacements := []
    sk_model := some ⟨[(0, 3)]⟩ }

/-- A world where material 3 exists (empty parameter store) and ids from 4 up
are fresh. -/
def smallWorld : SKWorld := ⟨4, [(3, [])]⟩

/-- `realizedModel` with the parameter (slot 0, "alpha") staged twice: first
value 1, then value 2. -/
def doubleStagedParamModel : Model :=
  (realizedModel.set_material_parameter_flex 0 "alpha"
    (MaterialParameter.scalarVal 1)).set_material_parameter_flex 0 "alpha"
      (MaterialParameter.scalarVal 2)

/-- `realizedModel` with exactly one staged parameter mutation. -/
def singleParamModel : Model :=
  { realizedModel with
    pending_material_parameters := [((0, "tint"), MaterialParameter.scalarVal 5)] }

/-- A per-frame surface environment where everything succeeds. -/
def liveProcessEnv : ProcessEnv := ⟨true, true, true, 10, 11, (4, 4)⟩

/-- A per-frame surface environment whose `wl_surface` is gone. -/
def deadProcessEnv : ProcessEnv := ⟨false, true, true, 10, 11, (4, 4)⟩

/-- A fresh surface with one staged material application targeting model 1,
slot 0. -/
def stagedSurface : CoreSurface := CoreSurface.add_to.apply_material 1 0

/-! ### Association-list lemmas -/

theorem lookupAL_insertAL {α β : Type} [DecidableEq α]
    (l : List (α × β)) (k j : α) (v : β) :
    lookupAL (insertAL l k v) j = if k = j then some v else lookupAL l j := by
  induction l with
  | nil => simp [insertAL, lookupAL]
  | cons p rest ih =>
    obtain ⟨k', v'⟩ := p
    by_cases hk : k' = k
    · subst hk
      by_cases hj : k' = j <;> simp [insertAL, lookupAL, hj]
    · by_cases hj : k' = j
      · subst hj
        have hne : k ≠ k' := fun h => hk h.symm
        simp [insertAL, hk, lookupAL, hne]
      · simp [insertAL, hk, lookupAL, hj, ih]

theorem lookupAL_updateAL {α β : Type} [DecidableEq α]
    (l : List (α × β)) (k j : α) (f : β → β) :
    lookupAL (updateAL l k f) j =
      if k = j then (lookupAL l k).map f else lookupAL l j := by
  induction l with
  | nil => simp [updateAL, lookupAL]
  | cons p rest ih =>
    obtain ⟨k', v'⟩ := p
    by_cases hk : k' = k
    · subst hk
      by_cases hj : k' = j <;> simp [updateAL, lookupAL, hj]
    · by_cases hj : k' = j
      · subst hj
        have hne : k ≠ k' := fun h => hk h.symm
        simp [updateAL, hk, lookupAL, hne]
      · simp [updateAL, hk, lookupAL, hj, ih]

theorem lookupAL_eq_none_of_not_mem {α β : Type} [DecidableEq α]
    (l : List (α × β)) (k : α) (h : k ∉ l.map Prod.fst) :
    lookupAL l k = none := by
  induction l with
  | nil => rfl
  | cons p rest ih =>
    obtain ⟨k', v'⟩ := p
    simp only [List.map_cons, List.mem_cons] at h
    push_neg at h
    have : k' ≠ k := fun he => h.1 he.symm
    simp [lookupAL, this, ih h.2]

/-- Inserting at a key that is already present does not change which keys have
a binding. -/
theorem isSome_lookupAL_insertAL_of_isSome {α β : Type} [DecidableEq α]
    (l : List (α × β)) (k : α) (v : β)
    (h : (lookupAL l k).isSome = true) (j : α) :
    (lookupAL (insertAL l k v) j).isSome = (lookupAL l j).isSome := by
  rw [lookupAL_insertAL]
  by_cases hj : k = j
  · subst hj
    simp [h]
  · simp [hj]

/-! ### Characterization of the two draw passes -/

/-- Unfolding of the replacement pass at an entry whose slot exists. -/
theorem applyReplacements_cons_pos (skm : SKModelVal) (mi mat : Nat)
    (rest : List (Nat × Nat))
    (h : (lookupAL skm.slots (Int.ofNat mi)).isSome = true) :
    applyReplacements skm ((mi, mat) :: rest) =
      ((applyReplacements ⟨insertAL skm.slots (Int.ofNat mi) mat⟩ rest).1,
        DrawEvent.setMaterial (Int.ofNat mi) mat ::
          (applyReplacements ⟨insertAL skm.slots (Int.ofNat mi) mat⟩ rest).2) := by
  simp only [applyReplacements]
  rw [if_pos h]

/-- Unfolding of the replacement pass at an entry whose slot is missing. -/
theorem applyReplacements_cons_neg (skm : SKModelVal) (mi mat : Nat)
    (rest : List (Nat × Nat))
    (h : ¬(lookupAL skm.slots (Int.ofNat mi)).isSome = true) :
    applyReplacements skm ((mi, mat) :: rest) = applyReplacements skm rest := by
  simp only [applyReplacements]
  rw [if_neg h]

/-- The `model_set_material` calls of the replacement pass are exactly the
staged entries whose target slot exists on the model, each once, in staging
order, and slot existence is judged against the model as it was when the pass
started. -/
theorem applyReplacements_events (skm : SKModelVal) (l : List (Nat × Nat)) :
    (applyReplacements skm l).2 =
      (l.filter fun e => (lookupAL skm.slots (Int.ofNat e.1)).isSome).map
        (fun e => DrawEvent.setMaterial (Int.ofNat e.1) e.2) := by
  induction l generalizing skm with
  | nil => rfl
  | cons e rest ih =>
    obtain ⟨mi, mat⟩ := e
    by_cases h : (lookupAL skm.slots (Int.ofNat mi)).isSome = true
    · have hpred :
          (fun e : Nat × Nat =>
            (lookupAL (insertAL skm.slots (Int.ofNat mi) mat) (Int.ofNat e.1)).isSome) =
          (fun e : Nat × Nat => (lookupAL skm.slots (Int.ofNat e.1)).isSome) := by
        funext x
        exact isSome_lookupAL_insertAL_of_isSome skm.slots (Int.ofNat mi) mat h
          (Int.ofNat x.1)
      rw [applyReplacements_cons_pos skm mi mat rest h,
        ih ⟨insertAL skm.slots (Int.ofNat mi) mat⟩]
      simp only [List.filter_cons, h, if_true]
      rw [hpred]
      simp
    · rw [applyReplacements_cons_neg skm mi mat rest h, ih skm]
      simp only [List.filter_cons]
      rw [if_neg h]

/-- Unfolding of the parameter pass at an entry whose slot exists. -/
theorem applyParameters_cons_pos (skm : SKModelVal) (w : SKWorld)
    (mi : Int) (pn : String) (v : MaterialParameter) (matId : Nat)
    (rest : List ((Int × String) × MaterialParameter))
    (hb : lookupAL skm.slots mi = some matId) :
    applyParameters skm w (((mi, pn), v) :: rest) =
      (let r := applyParameters ⟨insertAL skm.slots mi w.nextMat⟩
        ⟨w.nextMat + 1,
          insertAL w.mats w.nextMat
            (v.apply_to_material pn ((lookupAL w.mats matId).getD []))⟩ rest
       (r.1, r.2.1, DrawEvent.paramApply mi pn v :: r.2.2)) := by
  simp only [applyParameters]
  rw [hb]

/-- Unfolding of the parameter pass at an entry whose slot is missing. -/
theorem applyParameters_cons_neg (skm : SKModelVal) (w : SKWorld)
    (mi : Int) (pn : String) (v : MaterialParameter)
    (rest : List ((Int × String) × MaterialParameter))
    (hb : lookupAL skm.slots mi = none) :
    applyParameters skm w (((mi, pn), v) :: rest) = applyParameters skm w rest := by
  simp only [applyParameters]
  rw [hb]

/-- The parameter pass emits no `setMaterial` events (its slot updates go
through `material_copy` + `model_set_material` of the fresh copy, recorded as
`paramApply` events). -/
theorem setMaterialEvents_applyParameters (skm : SKModelVal) (w : SKWorld)
    (l : List ((Int × String) × MaterialParameter)) :
    setMaterialEvents (applyParameters skm w l).2.2 = [] := by
  induction l generalizing skm w with
  | nil => rfl
  | cons e rest ih =>
    obtain ⟨⟨mi, pn⟩, v⟩ := e
    match hb : lookupAL skm.slots mi with
    | none =>
      rw [applyParameters_cons_neg skm w mi pn v rest hb]
      exact ih skm w
    | some matId =>
      rw [applyParameters_cons_pos skm w mi pn v matId rest hb]
      simp only [setMaterialEvents, List.filterMap_cons]
      exact ih _ _

/-- The replacement pass emits no `paramApply` events. -/
theorem paramAppsFor_applyReplacements (k : Int × String) (skm : SKModelVal)
    (l : List (Nat × Nat)) :
    paramAppsFor k (applyReplacements skm l).2 = [] := by
  induction l generalizing skm with
  | nil => rfl
  | cons e rest ih =>
    obtain ⟨mi, mat⟩ := e
    by_cases h : (lookupAL skm.slots (Int.ofNat mi)).isSome = true
    · rw [applyReplacements_cons_pos skm mi mat rest h]
      simp only [paramAppsFor, List.filterMap_cons]
      exact ih _
    · rw [applyReplacements_cons_neg skm mi mat rest h]
      exact ih skm

/-! ### Draw unfolding lemmas -/

/-- A realized model's draw skips construction and runs the two passes. -/
theorem Model.draw_of_realized (env : GraphicsEnv) (ca : Bool) (m : Model)
    (w : SKWorld) (skm : SKModelVal) (h : m.sk_model = some skm) :
    Model.draw env ca m w = Model.drawRealized ca m skm w [] := by
  simp only [Model.draw]
  rw [h]

/-- A registered model whose descriptor cell is still unset is skipped without
any construction attempt, log, or draw, and without state change
(`pending_model_path.get().ok_or(Error)?` fails before `model_create_file`). -/
theorem Model.draw_no_descriptor (env : GraphicsEnv) (ca : Bool) (m : Model)
    (w : SKWorld) (h1 : m.sk_model = none) (h2 : m.pending_model_path = none) :
    Model.draw env ca m w = (m, w, []) := by
  simp only [Model.draw]
  rw [h1, h2]

/-- When `model_create_file` fails, the draw call makes exactly one
construction attempt, logs nothing, draws nothing, and leaves the model and
the world unchanged — the `OnceCell` stays empty. -/
theorem Model.draw_construct_fail (env : GraphicsEnv) (ca : Bool) (m : Model)
    (w : SKWorld) (path : String) (h1 : m.sk_model = none)
    (h2 : m.pending_model_path = some path)
    (h3 : env.model_create_file path = none) :
    Model.draw env ca m w = (m, w, [DrawEvent.constructAttempt path]) := by
  simp only [Model.draw]
  rw [h1, h2]
  dsimp only
  rw [h3]

/-- Iterating draws over a permanently failing construction: every call
re-attempts construction, the state never changes. -/
theorem iterateDraw_construct_fail (env : GraphicsEnv) (ca : Bool) (m : Model)
    (w : SKWorld) (path : String) (h1 : m.sk_model = none)
    (h2 : m.pending_model_path = some path)
    (h3 : env.model_create_file path = none) (n : Nat) :
    iterateDraw env ca n m w =
      (m, w, List.replicate n (DrawEvent.constructAttempt path)) := by
  induction n with
  | zero => rfl
  | succ n ih =>
    simp only [iterateDraw]
    rw [Model.draw_construct_fail env ca m w path h1 h2 h3]
    simp only []
    rw [ih]
    simp [List.replicate_succ]

/-- The per-frame pass visits every registered model: a per-object failure
never shortens the pass. -/
theorem draw_all_length (env : GraphicsEnv) (ca : Bool) (ms : List Model) :
    ∀ w, (draw_all env ca ms w).1.length = ms.length := by
  induction ms with
  | nil => intro w; rfl
  | cons m rest ih =>
    intro w
    by_cases h : m.enabled = true <;> simp [draw_all, h, ih]

/-- After the draw passes the replacement staging map is empty, whatever the
client-upgrade outcome. -/
theorem drawRealized_replacements_empty (ca : Bool) (m : Model) (skm : SKModelVal)
    (w : SKWorld) (ev0 : List DrawEvent) :
    (Model.drawRealized ca m skm w ev0).1.pending_material_replacements = [] := by
  cases ca <;> rfl

/-- With a live client the parameter staging map is drained empty. -/
theorem drawRealized_params_true (m : Model) (skm : SKModelVal) (w : SKWorld)
    (ev0 : List DrawEvent) :
    (Model.drawRealized true m skm w ev0).1.pending_material_parameters = [] := rfl

/-- With the owning client gone the parameter pass is skipped and the staging
map is left untouched. -/
theorem drawRealized_params_false (m : Model) (skm : SKModelVal) (w : SKWorld)
    (ev0 : List DrawEvent) :
    (Model.drawRealized false m skm w ev0).1.pending_material_parameters
      = m.pending_material_parameters := rfl

/-- Event trace of a realized draw with a live client. -/
theorem drawRealized_events_true (m : Model) (skm : SKModelVal) (w : SKWorld)
    (ev0 : List DrawEvent) :
    (Model.drawRealized true m skm w ev0).2.2 =
      ev0 ++ (applyReplacements skm m.pending_material_replacements).2
        ++ (applyParameters (applyReplacements skm m.pending_material_replacements).1 w
              m.pending_material_parameters).2.2
        ++ [DrawEvent.modelDraw] := rfl

/-- Event trace of a realized draw whose owning client is gone. -/
theorem drawRealized_events_false (m : Model) (skm : SKModelVal) (w : SKWorld)
    (ev0 : List DrawEvent) :
    (Model.drawRealized false m skm w ev0).2.2 =
      ev0 ++ (applyReplacements skm m.pending_material_replacements).2
        ++ [DrawEvent.modelDraw] := rfl

/-- The material world produced by a realized draw with a live client. -/
theorem drawRealized_world_true (m : Model) (skm : SKModelVal) (w : SKWorld)
    (ev0 : List DrawEvent) :
    (Model.drawRealized true m skm w ev0).2.1 =
      (applyParameters (applyReplacements skm m.pending_material_replacements).1 w
        m.pending_material_parameters).2.1 := rfl

/-- The model's slot table after a realized draw with a live client. -/
theorem drawRealized_sk_model_true (m : Model) (skm : SKModelVal) (w : SKWorld)
    (ev0 : List DrawEvent) :
    (Model.drawRealized true m skm w ev0).1.sk_model =
      some (applyParameters (applyReplacements skm m.pending_material_replacements).1 w
        m.pending_material_parameters).1 := rfl

/-- The replacement pass only ever overwrites existing slots, so which slots
exist is unchanged by it. -/
theorem isSome_applyReplacements (skm : SKModelVal) (l : List (Nat × Nat)) (j : Int) :
    (lookupAL (applyReplacements skm l).1.slots j).isSome
      = (lookupAL skm.slots j).isSome := by
  induction l generalizing skm with
  | nil => rfl
  | cons e rest ih =>
    obtain ⟨mi, mat⟩ := e
    by_cases h : (lookupAL skm.slots (Int.ofNat mi)).isSome = true
    · rw [applyReplacements_cons_pos skm mi mat rest h]
      rw [ih ⟨insertAL skm.slots (Int.ofNat mi) mat⟩]
      exact isSome_lookupAL_insertAL_of_isSome skm.slots (Int.ofNat mi) mat h j
    · rw [applyReplacements_cons_neg skm mi mat rest h]
      exact ih skm

theorem setMaterialEvents_append (a b : List DrawEvent) :
    setMaterialEvents (a ++ b) = setMaterialEvents a ++ setMaterialEvents b := by
  simp [setMaterialEvents]

theorem paramAppsFor_append (k : Int × String) (a b : List DrawEvent) :
    paramAppsFor k (a ++ b) = paramAppsFor k a ++ paramAppsFor k b := by
  simp [paramAppsFor]

/-- `setMaterialEvents` of the replacement pass, in data form. -/
theorem setMaterialEvents_applyReplacements (skm : SKModelVal) (l : List (Nat × Nat)) :
    setMaterialEvents (applyReplacements skm l).2 =
      (l.filter (fun e => (lookupAL skm.slots (Int.ofNat e.1)).isSome)).map
        (fun e => (Int.ofNat e.1, e.2)) := by
  rw [applyReplacements_events]
  generalize (l.filter fun e => (lookupAL skm.slots (Int.ofNat e.1)).isSome) = l'
  induction l' with
  | nil => rfl
  | cons e rest ih => simp [setMaterialEvents, List.filterMap_cons] at ih ⊢; exact ih

/-- Head reduction of `paramAppsFor` at a parameter-application event. -/
theorem paramAppsFor_cons_apply (k : Int × String) (s : Int) (n : String)
    (v : MaterialParameter) (t : List DrawEvent) :
    paramAppsFor k (DrawEvent.paramApply s n v :: t) =
      if s = k.1 ∧ n = k.2 then v :: paramAppsFor k t else paramAppsFor k t := by
  by_cases h : s = k.1 ∧ n = k.2 <;> simp [paramAppsFor, h]

/-- A key never staged produces no parameter application. -/
theorem paramAppsFor_applyParameters_not_mem (k : Int × String) (skm : SKModelVal)
    (w : SKWorld) (l : List ((Int × String) × MaterialParameter))
    (h : k ∉ l.map Prod.fst) :
    paramAppsFor k (applyParameters skm w l).2.2 = [] := by
  induction l generalizing skm w with
  | nil => rfl
  | cons e rest ih =>
    obtain ⟨⟨s₀, n₀⟩, v₀⟩ := e
    simp only [List.map_cons, List.mem_cons] at h
    push_neg at h
    match hb : lookupAL skm.slots s₀ with
    | none =>
      rw [applyParameters_cons_neg skm w s₀ n₀ v₀ rest hb]
      exact ih _ _ h.2
    | some matId =>
      rw [applyParameters_cons_pos skm w s₀ n₀ v₀ matId rest hb]
      dsimp only
      rw [paramAppsFor_cons_apply]
      have hne : ¬(s₀ = k.1 ∧ n₀ = k.2) := by
        rintro ⟨h1, h2⟩
        exact h.1 (by rw [h1, h2])
      rw [if_neg hne]
      exact ih _ _ h.2

/-- Main C4 engine: with a nodup-keyed staging map (which `insert` staging
guarantees), the draw parameter pass applies the staged value for a key
exactly once when its slot exists and not at all otherwise. -/
theorem paramAppsFor_applyParameters (k : Int × String) (v : MaterialParameter)
    (skm : SKModelVal) (w : SKWorld)
    (l : List ((Int × String) × MaterialParameter))
    (hnd : (l.map Prod.fst).Nodup) (hv : lookupAL l k = some v) :
    paramAppsFor k (applyParameters skm w l).2.2 =
      if (lookupAL skm.slots k.1).isSome then [v] else [] := by
  induction l generalizing skm w with
  | nil => simp [lookupAL] at hv
  | cons e rest ih =>
    obtain ⟨⟨s₀, n₀⟩, v₀⟩ := e
    simp only [List.map_cons, List.nodup_cons] at hnd
    by_cases hk : ((s₀, n₀) : Int × String) = k
    · subst hk
      rw [lookupAL, if_pos rfl] at hv
      injection hv with hv
      subst hv
      match hb : lookupAL skm.slots s₀ with
      | none =>
        rw [applyParameters_cons_neg skm w s₀ n₀ v₀ rest hb]
        rw [paramAppsFor_applyParameters_not_mem _ skm w rest hnd.1]
        simp [hb]
      | some matId =>
        rw [applyParameters_cons_pos skm w s₀ n₀ v₀ matId rest hb]
        dsimp only
        rw [paramAppsFor_cons_apply]
        rw [if_pos ⟨rfl, rfl⟩]
        rw [paramAppsFor_applyParameters_not_mem _ _ _ rest hnd.1]
        simp [hb]
    · have hv' : lookupAL rest k = some v := by
        rw [lookupAL, if_neg hk] at hv
        exact hv
      match hb : lookupAL skm.slots s₀ with
      | none =>
        rw [applyParameters_cons_neg skm w s₀ n₀ v₀ rest hb]
        exact ih _ _ hnd.2 hv'
      | some matId =>
        rw [applyParameters_cons_pos skm w s₀ n₀ v₀ matId rest hb]
        dsimp only
        rw [paramAppsFor_cons_apply]
        have hne : ¬(s₀ = k.1 ∧ n₀ = k.2) := by
          rintro ⟨h1, h2⟩
          exact hk (by rw [h1, h2])
        rw [if_neg hne]
        have hdom := isSome_lookupAL_insertAL_of_isSome skm.slots s₀ w.nextMat
          (by simp [hb]) k.1
        rw [ih _ _ hnd.2 hv', hdom]

/-! ### Claim C1 — replacement staging is a keyed map, not a FIFO queue -/

/-- C1 counterexample: the claim says staged replacements form an unkeyed
FIFO queue with each queued replacement attempted exactly once.  The staging
collection is `FxHashMap<u32, Arc<Material>>`: staging material 5 and then
material 7 for the same slot 0 leaves a single entry, and during the draw
pass material 5 is never attempted — only the later material 7 is. -/
theorem c1_replacement_not_fifo_counterexample :
    ((({ enabled := true, pending_model_path := some "a.glb",
          pending_material_parameters := [], pending_material_replacements := [],
          sk_model := some ⟨[(0, 3)]⟩ } : Model).stage_material_replacement 0
            5).stage_material_replacement 0 7).pending_material_replacements
      = [(0, 7)]
    ∧ setMaterialEvents
        (Model.draw ⟨fun _ => none⟩ true
          ((({ enabled := true, pending_model_path := some "a.glb",
               pending_material_parameters := [], pending_material_replacements := [],
               sk_model := some ⟨[(0, 3)]⟩ } : Model).stage_material_replacement 0
                 5).stage_material_replacement 0 7) ⟨4, [(3, [])]⟩).2.2
      = [((0 : Int), 7)]
    ∧ ((0 : Int), 5) ∉ setMaterialEvents
        (Model.draw ⟨fun _ => none⟩ true
          ((({ enabled := true, pending_model_path := some "a.glb",
               pending_material_parameters := [], pending_material_replacements := [],
               sk_model := some ⟨[(0, 3)]⟩ } : Model).stage_material_replacement 0
                 5).stage_material_replacement 0 7) ⟨4, [(3, [])]⟩).2.2 := by
  decide

/-- C1 amended: staged replacement assignments form a slot-keyed map: staging
a later replacement for the same slot overwrites the earlier unconsumed one;
during the draw pass each surviving (slot → material) entry is attempted
exactly once in map order — applied only when its target slot exists on the
realized resource — and the map is empty immediately after the pass
regardless of slot existence. -/
theorem c1_replacements_keyed_cleared (env : GraphicsEnv) (ca : Bool) (m : Model)
    (w : SKWorld) (skm : SKModelVal) (h : m.sk_model = some skm) :
    (∀ (m' : Model) (slot a b : Nat),
      lookupAL ((m'.stage_material_replacement slot a).stage_material_replacement
        slot b).pending_material_replacements slot = some b)
    ∧ (Model.draw env ca m w).1.pending_material_replacements = []
    ∧ setMaterialEvents (Model.draw env ca m w).2.2 =
        (m.pending_material_replacements.filter
          (fun e => (lookupAL skm.slots (Int.ofNat e.1)).isSome)).map
          (fun e => (Int.ofNat e.1, e.2)) := by
  refine ⟨?_, ?_, ?_⟩
  · intro m' slot a b
    simp [Model.stage_material_replacement, lookupAL_insertAL]
  · rw [Model.draw_of_realized env ca m w skm h]
    exact drawRealized_replacements_empty ca m skm w []
  · rw [Model.draw_of_realized env ca m w skm h]
    cases ca
    · rw [drawRealized_events_false, setMaterialEvents_append,
        setMaterialEvents_append, setMaterialEvents_applyReplacements]
      simp [setMaterialEvents]
    · rw [drawRealized_events_true, setMaterialEvents_append,
        setMaterialEvents_append, setMaterialEvents_append,
        setMaterialEvents_applyReplacements, setMaterialEvents_applyParameters]
      simp [setMaterialEvents]

/-- C1 witness: the keyed-map behaviour at a concrete doubly staged slot. -/
theorem c1_replacements_keyed_cleared_witness :
    ((({ enabled := true, pending_model_path := some "a.glb",
         pending_material_parameters := [], pending_material_replacements := [],
         sk_model := some ⟨[(0, 3)]⟩ } : Model).stage_material_replacement 0
           5).stage_material_replacement 0 7).sk_model = some ⟨[(0, 3)]⟩
    ∧ lookupAL
        ((({ enabled := true, pending_model_path := some "a.glb",
             pending_material_parameters := [], pending_material_replacements := [],
             sk_model := some ⟨[(0, 3)]⟩ } : Model).stage_material_replacement 0
               5).stage_material_replacement 0 7).pending_material_replacements 0
      = some 7
    ∧ (Model.draw ⟨fun _ => none⟩ true
        ((({ enabled := true, pending_model_path := some "a.glb",
             pending_material_parameters := [], pending_material_replacements := [],
             sk_model := some ⟨[(0, 3)]⟩ } : Model).stage_material_replacement 0
               5).stage_material_replacement 0 7)
        ⟨4, [(3, [])]⟩).1.pending_material_replacements = [] :=
  ⟨rfl,
    (c1_replacements_keyed_cleared ⟨fun _ => none⟩ true
      ((({ enabled := true, pending_model_path := some "a.glb",
           pending_material_parameters := [], pending_material_replacements := [],
           sk_model := some ⟨[(0, 3)]⟩ } : Model).stage_material_replacement 0
             5).stage_material_replacement 0 7)
      ⟨4, [(3, [])]⟩ ⟨[(0, 3)]⟩ rfl).1
      { enabled := true, pending_model_path := some "a.glb",
        pending_material_parameters := [], pending_material_replacements := [],
        sk_model := some ⟨[(0, 3)]⟩ } 0 5 7,
    (c1_replacements_keyed_cleared ⟨fun _ => none⟩ true
      ((({ enabled := true, pending_model_path := some "a.glb",
           pending_material_parameters := [], pending_material_replacements := [],
           sk_model := some ⟨[(0, 3)]⟩ } : Model).stage_material_replacement 0
             5).stage_material_replacement 0 7)
      ⟨4, [(3, [])]⟩ ⟨[(0, 3)]⟩ rfl).2.1⟩

/-! ### Claim C4 — parameter mutations are last-write-wins per key -/

/-- C4: parameter mutations are keyed by `(slot, name)`: a later staged entry
for the same key overwrites an earlier unconsumed one, and during a draw pass
with a live client the staged value for a key is applied to the material
exactly once when its slot exists on the realized model — so only the last
staged value is ever applied — and not at all for an unknown slot. -/
theorem c4_param_last_write_wins (env : GraphicsEnv) (m : Model) (w : SKWorld)
    (skm : SKModelVal) (k : Int × String) (v : MaterialParameter)
    (h : m.sk_model = some skm)
    (hnd : (m.pending_material_parameters.map Prod.fst).Nodup)
    (hk : lookupAL m.pending_material_parameters k = some v) :
    (∀ (m' : Model) (idx : Nat) (name : String) (v1 v2 : MaterialParameter),
      lookupAL ((m'.set_material_parameter_flex idx name
        v1).set_material_parameter_flex idx name
          v2).pending_material_parameters (Int.ofNat idx, name) = some v2)
    ∧ paramAppsFor k (Model.draw env true m w).2.2 =
        (if (lookupAL skm.slots k.1).isSome then [v] else []) := by
  refine ⟨?_, ?_⟩
  · intro m' idx name v1 v2
    simp [Model.set_material_parameter_flex, lookupAL_insertAL]
  · rw [Model.draw_of_realized env true m w skm h]
    rw [drawRealized_events_true]
    simp only [paramAppsFor_append]
    rw [paramAppsFor_applyReplacements,
      paramAppsFor_applyParameters k v _ w m.pending_material_parameters hnd hk,
      isSome_applyReplacements skm m.pending_material_replacements k.1]
    simp [paramAppsFor]

/-- C4 witness: last-write-wins at a concrete doubly staged key. -/
theorem c4_param_last_write_wins_witness :
    (doubleStagedParamModel.sk_model = some ⟨[(0, 3)]⟩
      ∧ (doubleStagedParamModel.pending_material_parameters.map Prod.fst).Nodup
      ∧ lookupAL doubleStagedParamModel.pending_material_parameters
          ((0 : Int), "alpha") = some (MaterialParameter.scalarVal 2))
    ∧ paramAppsFor ((0 : Int), "alpha")
        (Model.draw failEnv true doubleStagedParamModel smallWorld).2.2
      = (if (lookupAL (⟨[(0, 3)]⟩ : SKModelVal).slots (0 : Int)).isSome
          then [MaterialParameter.scalarVal 2] else []) :=
  ⟨⟨rfl, by decide, rfl⟩,
    (c4_param_last_write_wins failEnv doubleStagedParamModel smallWorld
      ⟨[(0, 3)]⟩ ((0 : Int), "alpha") (MaterialParameter.scalarVal 2)
      rfl (by decide) rfl).2⟩

/-! ### Claim C5 — staging collections after the draw pass -/

/-- C5 counterexample: the claim says both staging collections are empty
after every draw pass of a realized object.  The parameter pass runs inside
`if let Some(client) = self.space.node.upgrade().and_then(|n| n.client.upgrade())`
(model.rs line 219): when the owning node/client weak references are dead the
parameter staging map is not drained — after the pass it still holds the
staged entry. -/
theorem c5_params_kept_without_client_counterexample :
    (Model.draw ⟨fun _ => none⟩ false
        { enabled := true, pending_model_path := some "a.glb",
          pending_material_parameters := [((0, "color"), MaterialParameter.scalarVal 1)],
          pending_material_replacements := [],
          sk_model := some ⟨[(0, 7)]⟩ } ⟨8, [(7, [])]⟩).1.pending_material_parameters
      = [((0, "color"), MaterialParameter.scalarVal 1)]
    ∧ (Model.draw ⟨fun _ => none⟩ false
        { enabled := true, pending_model_path := some "a.glb",
          pending_material_parameters := [((0, "color"), MaterialParameter.scalarVal 1)],
          pending_material_replacements := [],
          sk_model := some ⟨[(0, 7)]⟩ } ⟨8, [(7, [])]⟩).1.pending_material_parameters
      ≠ [] := by
  decide

/-- C5 amended: after a realized object's draw pass the replacement map is
always empty regardless of per-entry outcome; the parameter staging map is
empty whenever the parameter pass ran (owning client still reachable,
including entries that targeted unknown slots), but is left untouched when
the owning node or client weak reference is dead. -/
theorem c5_staging_cleared_after_pass (env : GraphicsEnv) (ca : Bool) (m : Model)
    (w : SKWorld) (skm : SKModelVal) (h : m.sk_model = some skm) :
    (Model.draw env ca m w).1.pending_material_replacements = []
    ∧ (ca = true → (Model.draw env ca m w).1.pending_material_parameters = [])
    ∧ (ca = false →
        (Model.draw env ca m w).1.pending_material_parameters
          = m.pending_material_parameters) := by
  rw [Model.draw_of_realized env ca m w skm h]
  refine ⟨drawRealized_replacements_empty ca m skm w [], ?_, ?_⟩
  · rintro rfl
    exact drawRealized_params_true m skm w []
  · rintro rfl
    exact drawRealized_params_false m skm w []

/-- C5 witness: the cleared collections at a concrete realized model with a
live client and a staged entry targeting an unknown slot. -/
theorem c5_staging_cleared_after_pass_witness :
    ({ enabled := true, pending_model_path := some "a.glb",
       pending_material_parameters := [((9, "color"), MaterialParameter.scalarVal 1)],
       pending_material_replacements := [(9, 5)],
       sk_model := some ⟨[(0, 7)]⟩ } : Model).sk_model = some ⟨[(0, 7)]⟩
    ∧ ((Model.draw ⟨fun _ => none⟩ true
        { enabled := true, pending_model_path := some "a.glb",
          pending_material_parameters := [((9, "color"), MaterialParameter.scalarVal 1)],
          pending_material_replacements := [(9, 5)],
          sk_model := some ⟨[(0, 7)]⟩ } ⟨8, [(7, [])]⟩).1.pending_material_replacements = []
      ∧ (true = true → (Model.draw ⟨fun _ => none⟩ true
          { enabled := true, pending_model_path := some "a.glb",
            pending_material_parameters := [((9, "color"), MaterialParameter.scalarVal 1)],
            pending_material_replacements := [(9, 5)],
            sk_model := some ⟨[(0, 7)]⟩ } ⟨8, [(7, [])]⟩).1.pending_material_parameters = [])
      ∧ (true = false → (Model.draw ⟨fun _ => none⟩ true
          { enabled := true, pending_model_path := some "a.glb",
            pending_material_parameters := [((9, "color"), MaterialParameter.scalarVal 1)],
            pending_material_replacements := [(9, 5)],
            sk_model := some ⟨[(0, 7)]⟩ } ⟨8, [(7, [])]⟩).1.pending_material_parameters
            = ({ enabled := true, pending_model_path := some "a.glb",
                 pending_material_parameters := [((9, "color"), MaterialParameter.scalarVal 1)],
                 pending_material_replacements := [(9, 5)],
                 sk_model := some ⟨[(0, 7)]⟩ } : Model).pending_material_parameters)) :=
  ⟨rfl,
    c5_staging_cleared_after_pass ⟨fun _ => none⟩ true
      { enabled := true, pending_model_path := some "a.glb",
        pending_material_parameters := [((9, "color"), MaterialParameter.scalarVal 1)],
        pending_material_replacements := [(9, 5)],
        sk_model := some ⟨[(0, 7)]⟩ } ⟨8, [(7, [])]⟩ ⟨[(0, 7)]⟩ rfl⟩

/-! ### Claim C7 — ChangeCell/Delta one-shot edge detection -/

/-- C7: `Delta` (the ChangeCell) is a one-shot edge detector: `delta()`
returns the current value exactly when it differs from the last-observed
value, updating last; an immediate second `delta()` returns nothing; writing
the last-observed value back also yields nothing; the concrete scenario
write 5 / delta = some 5 / delta = none / write 5 / delta = none / write 7 /
delta = some 7 holds from a fresh cell. -/
theorem c7_change_cell_one_shot :
    (((Delta.new 0 : Delta Nat).write 5).delta.1 = some 5
      ∧ ((Delta.new 0 : Delta Nat).write 5).delta.2.delta.1 = none
      ∧ ((((Delta.new 0 : Delta Nat).write 5).delta.2).write 5).delta.1 = none
      ∧ (((((Delta.new 0 : Delta Nat).write 5).delta.2).write 5).delta.2.write 7).delta.1
          = some 7)
    ∧ (∀ d : Delta Nat,
        d.delta.1 = if d.current = d.last then none else some d.current)
    ∧ (∀ d : Delta Nat, d.delta.2.delta.1 = none)
    ∧ (∀ d : Delta Nat, (d.write d.last).delta.1 = none) := by
  refine ⟨by decide, ?_, ?_, ?_⟩
  · intro d
    by_cases h : d.current = d.last <;> simp [Delta.delta, h]
  · intro d
    by_cases h : d.current = d.last <;> simp [Delta.delta, h]
  · intro d
    simp [Delta.write, Delta.delta]

/-! ### Claim C8 — accept-loop error handling -/

/-- C8 counterexample: the claim says every failed accept is logged; in the
code a failed accept hits `else { continue }` with no log at all (the only
`error!` in the loop is for `Client::from_connection` failures), so the
iteration outcome for a failed accept has `logged = false`. -/
theorem c8_accept_failure_unlogged_counterexample :
    acceptIter AcceptResult.err (fun _ => true)
      = { continues := true, logged := false, clientCreated := false } :=
  rfl

/-- C8 amended: a failed accept is silently skipped — not logged — and the
loop continues; a connection whose client creation fails is logged and the
loop continues; no iteration outcome is ever fatal to the loop. -/
theorem c8_accept_loop_nonfatal :
    ∀ (f : Nat → Bool) (r : AcceptResult) (c : Nat),
      (acceptIter r f).continues = true
      ∧ (acceptIter AcceptResult.err f).logged = false
      ∧ (acceptIter (AcceptResult.ok c) f).logged = !f c
      ∧ (acceptIter (AcceptResult.ok c) f).clientCreated = f c := by
  intro f r c
  refine ⟨?_, rfl, ?_, ?_⟩
  · cases r with
    | err => rfl
    | ok c' => by_cases h : f c' = true <;> simp [acceptIter, h]
  · by_cases h : f c = true <;> simp [acceptIter, h]
  · by_cases h : f c = true <;> simp [acceptIter, h]

/-! ### Claim C3 — descriptor vs. Registry publication order -/

/-- C3 counterexample: the claim says the resolved model path is set before
the object is published to the Registry; in `Model::add_to` the
`MODEL_REGISTRY.add(model)` call (line 147) precedes
`pending_model_path.set(..)` (line 148): in the successful creation trace the
publication event strictly precedes the descriptor-set event. -/
theorem c3_published_before_descriptor_counterexample :
    (Model.add_to true false true (some "model.glb")).2
      = [AddEvent.registryAdd, AddEvent.descriptorSet, AddEvent.drawableSet]
    ∧ (Model.add_to true false true (some "model.glb")).2.findIdx
        (fun e => decide (e = AddEvent.registryAdd)) = 0
    ∧ (Model.add_to true false true (some "model.glb")).2.findIdx
        (fun e => decide (e = AddEvent.descriptorSet)) = 1 := by
  decide

/-- C3 amended: the model is published to the Registry first and the
descriptor is set afterwards; the race window is benign because a draw call
observing a registered model with no descriptor skips it for that frame
without a construction attempt and without changing any state (construction
then succeeds on a later frame, the initializer cell having stayed empty). -/
theorem c3_publish_then_descriptor_benign :
    (∀ p : String,
      Model.add_to true false true (some p)
        = (Except.ok
            { enabled := true
              pending_model_path := some p
              pending_material_parameters := []
              pending_material_replacements := []
              sk_model := none },
           [AddEvent.registryAdd, AddEvent.descriptorSet, AddEvent.drawableSet]))
    ∧ (∀ (env : GraphicsEnv) (ca : Bool) (m : Model) (w : SKWorld),
        m.sk_model = none → m.pending_model_path = none →
        Model.draw env ca m w = (m, w, [])) := by
  refine ⟨fun p => rfl, fun env ca m w h1 h2 => ?_⟩
  exact Model.draw_no_descriptor env ca m w h1 h2

/-- C3 witness: the benign-skip part at a concrete descriptorless model. -/
theorem c3_publish_then_descriptor_benign_witness :
    ({ enabled := true, pending_model_path := none,
       pending_material_parameters := [], pending_material_replacements := [],
       sk_model := none } : Model).sk_model = none
    ∧ Model.draw ⟨fun _ => none⟩ true
        { enabled := true, pending_model_path := none,
          pending_material_parameters := [], pending_material_replacements := [],
          sk_model := none } ⟨0, []⟩
      = ({ enabled := true, pending_model_path := none,
           pending_material_parameters := [], pending_material_replacements := [],
           sk_model := none }, ⟨0, []⟩, []) :=
  ⟨rfl,
    c3_publish_then_descriptor_benign.2 ⟨fun _ => none⟩ true
      { enabled := true, pending_model_path := none,
        pending_material_parameters := [], pending_material_replacements := [],
        sk_model := none } ⟨0, []⟩ rfl rfl⟩

/-! ### Claim C2 — construction failure handling -/

/-- C2 counterexample: the claim says construction is attempted at most once,
the failure is logged exactly once, and no later per-frame call retries.  In
the code `sk_model.get_or_try_init` leaves the cell empty when the
initializer fails and `.ok()` discards the error silently: two successive
draw calls on a model whose asset never decodes make two construction
attempts and log nothing at all. -/
theorem c2_construction_retried_counterexample :
    (iterateDraw ⟨fun _ => none⟩ true 2
        { enabled := true, pending_model_path := some "missing.glb",
          pending_material_parameters := [], pending_material_replacements := [],
          sk_model := none } ⟨0, []⟩).2.2
      = [DrawEvent.constructAttempt "missing.glb",
         DrawEvent.constructAttempt "missing.glb"]
    ∧ DrawEvent.logError ∉
        (iterateDraw ⟨fun _ => none⟩ true 2
          { enabled := true, pending_model_path := some "missing.glb",
            pending_material_parameters := [], pending_material_replacements := [],
            sk_model := none } ⟨0, []⟩).2.2
    ∧ (iterateDraw ⟨fun _ => none⟩ true 2
        { enabled := true, pending_model_path := some "missing.glb",
          pending_material_parameters := [], pending_material_replacements := [],
          sk_model := none } ⟨0, []⟩).1.sk_model = none := by
  decide

/-- C2 amended: while a model is unrealized and its asset fails to decode,
every per-frame call makes exactly one fresh construction attempt (the
failure is retried each frame, not remembered), nothing is ever logged, no
draw is issued, the model and world are left unchanged, and the frame is
never aborted — `draw_all` still visits every model of the snapshot. -/
theorem c2_construction_failure_silent_retry (env : GraphicsEnv) (ca : Bool)
    (m : Model) (w : SKWorld) (path : String) (h1 : m.sk_model = none)
    (h2 : m.pending_model_path = some path)
    (h3 : env.model_create_file path = none) :
    Model.draw env ca m w = (m, w, [DrawEvent.constructAttempt path])
    ∧ (∀ n, iterateDraw env ca n m w =
        (m, w, List.replicate n (DrawEvent.constructAttempt path)))
    ∧ DrawEvent.logError ∉ (Model.draw env ca m w).2.2
    ∧ DrawEvent.modelDraw ∉ (Model.draw env ca m w).2.2
    ∧ (∀ (ms : List Model) (w0 : SKWorld),
        (draw_all env ca ms w0).1.length = ms.length) := by
  refine ⟨Model.draw_construct_fail env ca m w path h1 h2 h3,
    iterateDraw_construct_fail env ca m w path h1 h2 h3, ?_, ?_,
    fun ms w0 => draw_all_length env ca ms w0⟩
  · rw [Model.draw_construct_fail env ca m w path h1 h2 h3]
    simp
  · rw [Model.draw_construct_fail env ca m w path h1 h2 h3]
    simp

/-- C2 witness: the amended behaviour at a concrete failing model. -/
theorem c2_construction_failure_silent_retry_witness :
    (({ enabled := true, pending_model_path := some "missing.glb",
        pending_material_parameters := [], pending_material_replacements := [],
        sk_model := none } : Model).sk_model = none
      ∧ (GraphicsEnv.mk (fun _ => none)).model_create_file "missing.glb" = none)
    ∧ Model.draw ⟨fun _ => none⟩ true
        { enabled := true, pending_model_path := some "missing.glb",
          pending_material_parameters := [], pending_material_replacements := [],
          sk_model := none } ⟨0, []⟩
      = ({ enabled := true, pending_model_path := some "missing.glb",
           pending_material_parameters := [], pending_material_replacements := [],
           sk_model := none }, ⟨0, []⟩,
         [DrawEvent.constructAttempt "missing.glb"])
    ∧ iterateDraw ⟨fun _ => none⟩ true 3
        { enabled := true, pending_model_path := some "missing.glb",
          pending_material_parameters := [], pending_material_replacements := [],
          sk_model := none } ⟨0, []⟩
      = ({ enabled := true, pending_model_path := some "missing.glb",
           pending_material_parameters := [], pending_material_replacements := [],
           sk_model := none }, ⟨0, []⟩,
         List.replicate 3 (DrawEvent.constructAttempt "missing.glb")) :=
  ⟨⟨rfl, rfl⟩,
    (c2_construction_failure_silent_retry ⟨fun _ => none⟩ true
      { enabled := true, pending_model_path := some "missing.glb",
        pending_material_parameters := [], pending_material_replacements := [],
        sk_model := none } ⟨0, []⟩ "missing.glb" rfl rfl rfl).1,
    (c2_construction_failure_silent_retry ⟨fun _ => none⟩ true
      { enabled := true, pending_model_path := some "missing.glb",
        pending_material_parameters := [], pending_material_replacements := [],
        sk_model := none } ⟨0, []⟩ "missing.glb" rfl rfl rfl).2.1 3⟩

/-! ### Claim C6 — deferred destruction -/

/-- Teardowns run by a drain count the queued occurrences: each queued handle
is destroyed exactly as many times as it was enqueued. -/
theorem countP_drainDestroyQueue (q : DQueue) (g : GpuHandle) :
    (drainDestroyQueue q).2.countP (fun e => decide (e = DrawEvent.skDestroy g))
      = q.countP (fun o => decide (o = some g)) := by
  induction q with
  | nil => rfl
  | cons o rest ih =>
    cases o with
    | none =>
      simpa [drainDestroyQueue, List.filterMap_cons, List.countP_cons] using ih
    | some g' =>
      by_cases hg : g' = g
      · subst hg
        simpa [drainDestroyQueue, List.filterMap_cons, List.countP_cons] using ih
      · simpa [drainDestroyQueue, List.filterMap_cons, List.countP_cons, hg] using ih

/-- C6: dropping a realized model invokes no graphics destruction primitive
(its event trace is empty): the GPU handle is taken out of the `OnceCell` and
appended to the destroy queue with sole ownership, so a second drop of the
same object transfers nothing; `CoreSurface` drops likewise invoke no
primitive; the handle's real teardown happens only in a later
`drainDestroyQueue`, which empties the queue and — when the handle was not
already queued — destroys it exactly once. -/
theorem c6_drop_defers_destruction (m : Model) (q : DQueue) (sk : SKModelVal)
    (h : m.sk_model = some sk) :
    Model.drop m q
      = ({ m with sk_model := none }, q ++ [some (GpuHandle.model sk)], [])
    ∧ Model.drop { m with sk_model := none } (q ++ [some (GpuHandle.model sk)])
      = ({ m with sk_model := none }, q ++ [some (GpuHandle.model sk)], [])
    ∧ (∀ (s : CoreSurface) (q' : DQueue), (CoreSurface.drop s q').2.2 = [])
    ∧ (drainDestroyQueue (q ++ [some (GpuHandle.model sk)])).1 = []
    ∧ (drainDestroyQueue (q ++ [some (GpuHandle.model sk)])).2.countP
        (fun e => decide (e = DrawEvent.skDestroy (GpuHandle.model sk)))
      = q.countP (fun o => decide (o = some (GpuHandle.model sk))) + 1 := by
  refine ⟨?_, rfl, fun s q' => rfl, rfl, ?_⟩
  · simp only [Model.drop]
    rw [h]
    rfl
  · rw [countP_drainDestroyQueue]
    simp [List.countP_append]

/-- C6 witness: the transfer at a concrete realized model and empty queue. -/
theorem c6_drop_defers_destruction_witness :
    realizedModel.sk_model = some ⟨[(0, 3)]⟩
    ∧ Model.drop realizedModel []
        = ({ realizedModel with sk_model := none },
           [some (GpuHandle.model ⟨[(0, 3)]⟩)], [])
    ∧ (drainDestroyQueue [some (GpuHandle.model ⟨[(0, 3)]⟩)]).2.countP
        (fun e => decide (e = DrawEvent.skDestroy (GpuHandle.model ⟨[(0, 3)]⟩)))
      = ([] : DQueue).countP
          (fun o => decide (o = some (GpuHandle.model ⟨[(0, 3)]⟩))) + 1 :=
  ⟨rfl, (c6_drop_defers_destruction realizedModel [] ⟨[(0, 3)]⟩ rfl).1,
    (c6_drop_defers_destruction realizedModel [] ⟨[(0, 3)]⟩ rfl).2.2.2.2⟩

/-! ### Claim C9 — copy-on-write parameter application -/

/-- The parameter pass never touches a pre-existing material: every fresh
copy is written under a new id at or above the allocation watermark. -/
theorem applyParameters_preserves_mats
    (l : List ((Int × String) × MaterialParameter)) (skm : SKModelVal)
    (w : SKWorld) (hw : ∀ id, w.nextMat ≤ id → lookupAL w.mats id = none) :
    ∀ id, id < w.nextMat →
      lookupAL (applyParameters skm w l).2.1.mats id = lookupAL w.mats id := by
  induction l generalizing skm w with
  | nil => intro id _; rfl
  | cons e rest ih =>
    obtain ⟨⟨s₀, n₀⟩, v₀⟩ := e
    match hb : lookupAL skm.slots s₀ with
    | none =>
      rw [applyParameters_cons_neg skm w s₀ n₀ v₀ rest hb]
      exact ih _ _ hw
    | some matId =>
      rw [applyParameters_cons_pos skm w s₀ n₀ v₀ matId rest hb]
      dsimp only
      intro id hid
      have hw' : ∀ id', w.nextMat + 1 ≤ id' →
          lookupAL (insertAL w.mats w.nextMat
            (v₀.apply_to_material n₀ ((lookupAL w.mats matId).getD []))) id' = none := by
        intro id' hid'
        rw [lookupAL_insertAL, if_neg (by omega : ¬w.nextMat = id')]
        exact hw id' (by omega)
      have hstep := ih ⟨insertAL skm.slots s₀ w.nextMat⟩
        ⟨w.nextMat + 1,
          insertAL w.mats w.nextMat
            (v₀.apply_to_material n₀ ((lookupAL w.mats matId).getD []))⟩
        hw' id (Nat.lt_succ_of_lt hid)
      rw [hstep]
      dsimp only
      rw [lookupAL_insertAL, if_neg (by omega : ¬w.nextMat = id)]

/-- The parameter pass at a single staged entry whose slot exists: copy the
slot's material to a fresh id, write the parameter onto the copy, point the
slot at the copy. -/
theorem applyParameters_singleton (skm : SKModelVal) (w : SKWorld) (slot : Int)
    (name : String) (v : MaterialParameter) (mid : Nat)
    (hb : lookupAL skm.slots slot = some mid) :
    applyParameters skm w [((slot, name), v)] =
      (⟨insertAL skm.slots slot w.nextMat⟩,
       ⟨w.nextMat + 1,
        insertAL w.mats w.nextMat
          (v.apply_to_material name ((lookupAL w.mats mid).getD []))⟩,
       [DrawEvent.paramApply slot name v]) := by
  rw [applyParameters_cons_pos skm w slot name v mid [] hb]
  rfl

/-- C9: applying staged parameter mutations never mutates a material in
place: after a realized draw with a live client every material id that
existed before the pass still holds exactly its old parameter store (so a
material shared with any other object is unaffected); for a single staged
mutation the current material at the slot is copied to the fresh id
`w.nextMat`, the named parameter is written onto the copy, the copy replaces
the slot, and the original material is untouched. -/
theorem c9_copy_on_write_isolation (env : GraphicsEnv) (m : Model) (w : SKWorld)
    (skm : SKModelVal) (h : m.sk_model = some skm)
    (hw : ∀ id, w.nextMat ≤ id → lookupAL w.mats id = none) :
    (∀ id, id < w.nextMat →
      lookupAL (Model.draw env true m w).2.1.mats id = lookupAL w.mats id)
    ∧ (∀ (slot : Int) (name : String) (v : MaterialParameter) (mid : Nat)
        (pm : ParamMap),
        m.pending_material_replacements = [] →
        m.pending_material_parameters = [((slot, name), v)] →
        lookupAL skm.slots slot = some mid →
        lookupAL w.mats mid = some pm →
        (Model.draw env true m w).1.sk_model
            = some ⟨insertAL skm.slots slot w.nextMat⟩
        ∧ lookupAL (Model.draw env true m w).2.1.mats w.nextMat
            = some (v.apply_to_material name pm)
        ∧ lookupAL (Model.draw env true m w).2.1.mats mid = some pm) := by
  rw [Model.draw_of_realized env true m w skm h]
  constructor
  · rw [drawRealized_world_true]
    exact applyParameters_preserves_mats m.pending_material_parameters
      (applyReplacements skm m.pending_material_replacements).1 w hw
  · intro slot name v mid pm hrep hpar hb hm
    have hmidlt : mid < w.nextMat := by
      by_contra hge
      rw [hw mid (by omega)] at hm
      exact Option.noConfusion hm
    rw [drawRealized_world_true, drawRealized_sk_model_true, hrep, hpar]
    simp only [applyReplacements]
    rw [applyParameters_singleton skm w slot name v mid hb]
    refine ⟨rfl, ?_, ?_⟩
    · dsimp only
      rw [lookupAL_insertAL, if_pos rfl, hm]
      rfl
    · dsimp only
      rw [lookupAL_insertAL, if_neg (by omega : ¬w.nextMat = mid), hm]

/-- C9 witness: copy-on-write at a concrete single staged mutation. -/
theorem c9_copy_on_write_isolation_witness :
    (singleParamModel.sk_model = some ⟨[(0, 3)]⟩
      ∧ lookupAL (⟨[(0, 3)]⟩ : SKModelVal).slots 0 = some 3
      ∧ lookupAL smallWorld.mats 3 = some [])
    ∧ lookupAL (Model.draw failEnv true singleParamModel smallWorld).2.1.mats 3
        = lookupAL smallWorld.mats 3
    ∧ lookupAL (Model.draw failEnv true singleParamModel smallWorld).2.1.mats
        smallWorld.nextMat
      = some ((MaterialParameter.scalarVal 5).apply_to_material "tint" []) :=
  ⟨⟨rfl, rfl, rfl⟩,
    (c9_copy_on_write_isolation failEnv singleParamModel smallWorld ⟨[(0, 3)]⟩ rfl
      (by
        intro id hid
        have hid4 : 4 ≤ id := hid
        rw [show smallWorld.mats = [(3, [])] from rfl, lookupAL,
          if_neg (by omega : ¬3 = id)]
        rfl)).1 3 (by decide),
    ((c9_copy_on_write_isolation failEnv singleParamModel smallWorld ⟨[(0, 3)]⟩ rfl
      (by
        intro id hid
        have hid4 : 4 ≤ id := hid
        rw [show smallWorld.mats = [(3, [])] from rfl, lookupAL,
          if_neg (by omega : ¬3 = id)]
        rfl)).2 0 "tint" (MaterialParameter.scalarVal 5) 3 [] rfl rfl rfl rfl).2.1⟩

/-! ### Claim C10 — surface material applications reach the model only when
mapped -/

/-- A dead `wl_surface` makes `process` a complete no-op. -/
theorem process_not_alive (e : ProcessEnv) (s : CoreSurface)
    (models : List (Nat × Model)) (h : e.alive = false) :
    CoreSurface.process e s models = (s, models) := by
  simp [CoreSurface.process, h]

/-- A failed buffer import leaves the staged applications and all models
untouched (only the lazily initialized texture/material cells are filled). -/
theorem process_import_fail (e : ProcessEnv) (s : CoreSurface)
    (models : List (Nat × Model)) (ha : e.alive = true) (hi : e.importOk = false) :
    CoreSurface.process e s models
      = ({ s with sk_tex := some (s.sk_tex.getD e.freshTex),
                  sk_mat := some (s.sk_mat.getD e.freshMat) }, models) := by
  simp [CoreSurface.process, ha, hi]

/-- An unmapped surface (no committed content) likewise leaves the staged
applications and all models untouched. -/
theorem process_not_mapped (e : ProcessEnv) (s : CoreSurface)
    (models : List (Nat × Model)) (ha : e.alive = true) (hi : e.importOk = true)
    (hm : e.mapped = false) :
    CoreSurface.process e s models
      = ({ s with sk_tex := some (s.sk_tex.getD e.freshTex),
                  sk_mat := some (s.sk_mat.getD e.freshMat) }, models) := by
  simp [CoreSurface.process, ha, hi, hm]

/-- The fully successful path drains the staged applications into the target
models' replacement maps, using the surface's shared material. -/
theorem process_success (e : ProcessEnv) (s : CoreSurface)
    (models : List (Nat × Model)) (ha : e.alive = true) (hi : e.importOk = true)
    (hm : e.mapped = true) :
    (CoreSurface.process e s models).1.pending_material_applications = []
    ∧ (CoreSurface.process e s models).2
        = apply_surface_materials models s.pending_material_applications
            (s.sk_mat.getD e.freshMat) := by
  constructor <;> simp [CoreSurface.process, ha, hi, hm]

/-- C10: `apply_material` only appends the (model, slot) pair to the
surface-local staging vector (touching nothing else); `process` forwards the
staged applications into the target models' slot-keyed replacement maps —
with the surface's shared material handle, a later application to the same
slot of the same model overwriting an earlier unconsumed entry — only when
the `wl_surface` is still alive, buffer import succeeds, and the surface has
mapped committed content; on any of the three failures the staged
applications stay local and every model's replacement map is unchanged. -/
theorem c10_apply_material_staged_until_mapped (e : ProcessEnv)
    (s : CoreSurface) (models : List (Nat × Model)) :
    (∀ (mdl idx : Nat),
      (s.apply_material mdl idx).pending_material_applications
        = s.pending_material_applications ++ [(mdl, idx)]
      ∧ (s.apply_material mdl idx).sk_tex = s.sk_tex
      ∧ (s.apply_material mdl idx).sk_mat = s.sk_mat)
    ∧ ((e.alive && e.importOk && e.mapped) = false →
        (CoreSurface.process e s models).2 = models
        ∧ (CoreSurface.process e s models).1.pending_material_applications
            = s.pending_material_applications)
    ∧ ((e.alive && e.importOk && e.mapped) = true →
        (CoreSurface.process e s models).1.pending_material_applications = []
        ∧ (CoreSurface.process e s models).2
            = apply_surface_materials models s.pending_material_applications
                (s.sk_mat.getD e.freshMat))
    ∧ (∀ (ms : List (Nat × Model)) (mid : Nat) (m0 : Model) (idx mat : Nat),
        lookupAL ms mid = some m0 →
        (lookupAL (apply_surface_materials ms [(mid, idx), (mid, idx)] mat) mid).map
            (fun mm => lookupAL mm.pending_material_replacements idx)
          = some (some mat)) := by
  refine ⟨fun mdl idx => ⟨rfl, rfl, rfl⟩, ?_, ?_, ?_⟩
  · intro hf
    match ha : e.alive with
    | false => rw [process_not_alive e s models ha]; exact ⟨rfl, rfl⟩
    | true =>
      match hi : e.importOk with
      | false => rw [process_import_fail e s models ha hi]; exact ⟨rfl, rfl⟩
      | true =>
        match hm : e.mapped with
        | false => rw [process_not_mapped e s models ha hi hm]; exact ⟨rfl, rfl⟩
        | true => rw [ha, hi, hm] at hf; exact Bool.noConfusion hf
  · intro ht
    simp only [Bool.and_eq_true] at ht
    exact process_success e s models ht.1.1 ht.1.2 ht.2
  · intro ms mid m0 idx mat hm0
    simp [apply_surface_materials, lookupAL_updateAL, hm0,
      Model.stage_material_replacement, lookupAL_insertAL]

/-- C10 witness: a staged application stays local through a dead-surface
`process` and reaches the model's replacement map on a successful one. -/
theorem c10_apply_material_staged_until_mapped_witness :
    ((deadProcessEnv.alive && deadProcessEnv.importOk && deadProcessEnv.mapped)
        = false
      ∧ (CoreSurface.process deadProcessEnv stagedSurface
          [(1, realizedModel)]).2 = [(1, realizedModel)]
      ∧ (CoreSurface.process deadProcessEnv stagedSurface
          [(1, realizedModel)]).1.pending_material_applications
        = stagedSurface.pending_material_applications)
    ∧ ((liveProcessEnv.alive && liveProcessEnv.importOk && liveProcessEnv.mapped)
        = true
      ∧ (CoreSurface.process liveProcessEnv stagedSurface
          [(1, realizedModel)]).1.pending_material_applications = [])
    ∧ (lookupAL [(1, realizedModel)] 1 = some realizedModel
      ∧ (lookupAL (apply_surface_materials [(1, realizedModel)] [(1, 0), (1, 0)] 5)
            1).map (fun mm => lookupAL mm.pending_material_replacements 0)
        = some (some 5)) :=
  ⟨⟨rfl,
    ((c10_apply_material_staged_until_mapped deadProcessEnv stagedSurface
      [(1, realizedModel)]).2.1 rfl).1,
    ((c10_apply_material_staged_until_mapped deadProcessEnv stagedSurface
      [(1, realizedModel)]).2.1 rfl).2⟩,
   ⟨rfl,
    ((c10_apply_material_staged_until_mapped liveProcessEnv stagedSurface
      [(1, realizedModel)]).2.2.1 rfl).1⟩,
   ⟨rfl,
    (c10_apply_material_staged_until_mapped liveProcessEnv stagedSurface
      [(1, realizedModel)]).2.2.2 [(1, realizedModel)] 1 realizedModel 0 5 rfl⟩⟩

end Stardust
